import Mathlib

/-!
Shallow embedding of the request-interception pipeline of the `reststd`
HTTP server (Go, package main): terminal colors, `GetStatusColor`, the
`RequestLogger` builder with its `String` and `PanicString` renderers,
the `ResponseRecorderWriter` response observer, and the
`RecoveryMiddleware` / `LoggerMiddleware` chain installed by
`router.Use(RecoveryMiddleware, LoggerMiddleware)`.

Modelling conventions:
- Go `int` is embedded as `Int`.
- Go strings here are ASCII, so `String.length` coincides with the byte
  length `len` used by the Go code.
- A Go `time.Duration` value is only ever observed through its
  `fmt.Sprint` rendering, so durations are embedded as that rendered
  string (the zero duration renders as "0s").
- A Go `interface\x7b\x7d` value, as inspected by the type assertion
  `err.(error)` and by the `recover() != nil` test, is embedded as
  `GoValue`: the nil interface value, a value implementing `error`
  (carrying its `Error()` message), or any other non-nil value.
- Side effects are traced explicitly: the statuses forwarded to a
  response sink form a `List Int`, emitted log lines form a
  `List String`.
-/

/-- A Go `interface\x7b\x7d` value as far as the pipeline inspects it:
nil, an `error` with message `msg`, or some other non-nil value. -/
inductive GoValue where
  | nil : GoValue
  | err (msg : String) : GoValue
  | other : GoValue
deriving DecidableEq, Repr

/-- The ANSI color palette (struct `Colors` in the source). -/
structure Colors where
  Red : String
  Green : String
  Yellow : String
  Blue : String
  Magenta : String
  Cyan : String
  Reset : String
deriving DecidableEq, Repr

/-- The process-wide palette value `colors` from the source. -/
def colors : Colors :=
  { Red := "\x1b[31m"
    Green := "\x1b[32m"
    Yellow := "\x1b[33m"
    Blue := "\x1b[34m"
    Magenta := "\x1b[35m"
    Cyan := "\x1b[36m"
    Reset := "\x1b[0m" }

/-- Go `GetStatusColor`: selects the color for an HTTP status code by a
switch over five ranges, defaulting to red. -/
def GetStatusColor (status : Int) : String :=
  if 100 ≤ status ∧ status < 200 then colors.Cyan
  else if 200 ≤ status ∧ status < 300 then colors.Green
  else if 300 ≤ status ∧ status < 400 then colors.Yellow
  else if 400 ≤ status ∧ status < 500 then colors.Magenta
  else colors.Red

/-- Go struct `RequestLogger`: method, status, elapsed time (`since`,
kept in its rendered form), path, and the color derived by `SetStatus`.
All fields take their Go zero values in `NewRequestLoggerBuilder`
(note: the zero `time.Duration` renders as "0s"). -/
structure RequestLogger where
  method : String
  status : Int
  since : String
  path : String
  color : String
deriving DecidableEq, Repr

/-- Go `NewRequestLoggerBuilder`: returns `&RequestLogger\x7b\x7d`, the
zero value of the struct (empty strings, status 0, zero duration). -/
def NewRequestLoggerBuilder : RequestLogger :=
  { method := "", status := 0, since := "0s", path := "", color := "" }

/-- Go `(*RequestLogger).SetMethod`. -/
def RequestLogger.SetMethod (rl : RequestLogger) (method : String) : RequestLogger :=
  { rl with method := method }

/-- Go `(*RequestLogger).SetPath`. -/
def RequestLogger.SetPath (rl : RequestLogger) (path : String) : RequestLogger :=
  { rl with path := path }

/-- Go `(*RequestLogger).SetSince` (the duration in rendered form). -/
def RequestLogger.SetSince (rl : RequestLogger) (since : String) : RequestLogger :=
  { rl with since := since }

/-- Go `(*RequestLogger).SetStatus`: stores the status and derives the
color via `GetStatusColor` as a side effect. -/
def RequestLogger.SetStatus (rl : RequestLogger) (status : Int) : RequestLogger :=
  { rl with status := status, color := GetStatusColor status }

/-- Go `(RequestLogger).GetMethod`. -/
def RequestLogger.GetMethod (rl : RequestLogger) : String := rl.method

/-- Go `(RequestLogger).GetStatus`. -/
def RequestLogger.GetStatus (rl : RequestLogger) : Int := rl.status

/-- Go `(RequestLogger).GetSince` (rendered form). -/
def RequestLogger.GetSince (rl : RequestLogger) : String := rl.since

/-- Go `(RequestLogger).GetPath`. -/
def RequestLogger.GetPath (rl : RequestLogger) : String := rl.path

/-- Go `(RequestLogger).pad`: renders the value (already done here, the
argument is the `fmt.Sprint` rendering) and right-pads it with
`max(padding - len v, 0)` spaces. The source computes that count through
`int(math.Max(float64(padding-len(v)), 0))`, which is exact at these
magnitudes. -/
def RequestLogger.pad (rl : RequestLogger) (padding : Int) (value : String) : String :=
  value ++ String.mk (List.replicate (max (padding - (value.length : Int)) 0).toNat ' ')

/-- Go `(RequestLogger).padAndColor`: wraps the value (padded when
`padding > 0`) between the color of the logger and the reset marker. -/
def RequestLogger.padAndColor (rl : RequestLogger) (padding : Int) (value : String) : String :=
  if 0 < padding then rl.color ++ rl.pad padding value ++ colors.Reset
  else rl.color ++ value ++ colors.Reset

/-- Go `(RequestLogger).String`: the steady-state log line
`"| %s | %s | %s | %s"` over the colored padded method, the colored
unpadded status, the padded elapsed time and the path. -/
def RequestLogger.line (rl : RequestLogger) : String :=
  "| " ++ rl.padAndColor 7 rl.GetMethod
    ++ " | " ++ rl.padAndColor 0 (toString rl.GetStatus)
    ++ " | " ++ rl.pad 12 rl.GetSince
    ++ " | " ++ rl.GetPath

/-- Go `(RequestLogger).PanicString`: the fault log line
`"| %s | %s |             | %s %s"` (13 blank columns in place of the
elapsed time) over the same method and status fields, the path, and the
fault description colored by the logger color: the `Error()` message
when the caught value implements `error`, the literal "Unknown"
otherwise. -/
def RequestLogger.PanicString (rl : RequestLogger) (err : GoValue) : String :=
  let stringer : String → String := fun e =>
    let coloredError := rl.color ++ e ++ colors.Reset
    "| " ++ rl.padAndColor 7 rl.GetMethod
      ++ " | " ++ rl.padAndColor 0 (toString rl.GetStatus)
      ++ " |             | " ++ rl.GetPath ++ " " ++ coloredError
  match err with
  | GoValue.err msg => stringer msg
  | _ => stringer "Unknown"

/-- An incoming HTTP request, as far as the pipeline reads it:
`r.Method` and `r.URL.Path`. -/
structure Request where
  method : String
  path : String
deriving DecidableEq, Repr

/-- How one invocation of a handler ends: a normal return, or a panic.
A panicking invocation carries the value that a directly deferred
`recover()` yields for it (`GoValue.nil` when `recover` yields nil). -/
inductive Outcome where
  | normal : Outcome
  | panicked (recovered : GoValue) : Outcome
deriving DecidableEq, Repr

/-- The observable behavior of one invocation of a downstream handler:
the sequence of `WriteHeader` calls it performs on the response writer
it was given (in order, before returning or panicking), and how the
invocation ends. -/
structure HandlerBehavior where
  writes : List Int
  outcome : Outcome
deriving DecidableEq, Repr

/-- Go struct `ResponseRecorderWriter`: wraps a response sink and
records the last status written. `forwarded` traces the `WriteHeader`
calls passed through to the wrapped `http.ResponseWriter`, in order. -/
structure ResponseRecorderWriter where
  forwarded : List Int
  Status : Int
deriving DecidableEq, Repr

/-- Go `(*ResponseRecorderWriter).WriteHeader`: records the status and
forwards the identical call to the underlying sink. -/
def ResponseRecorderWriter.WriteHeader (rr : ResponseRecorderWriter) (status : Int) :
    ResponseRecorderWriter :=
  { forwarded := rr.forwarded ++ [status], Status := status }

/-- The recorder as `LoggerMiddleware` constructs it: nothing forwarded
yet, `Status` initialized to `http.StatusOK` (200). -/
def loggerInitialWriter : ResponseRecorderWriter :=
  { forwarded := [], Status := 200 }

/-- Runs a sequence of `WriteHeader` calls against a recorder. -/
def applyWrites (rr : ResponseRecorderWriter) (ws : List Int) : ResponseRecorderWriter :=
  ws.foldl ResponseRecorderWriter.WriteHeader rr

/-- The observable result of running a (possibly wrapped) handler:
statuses written to the real response sink in order, log lines emitted
in order, and whether a panic escapes to the caller. -/
structure MWTrace where
  sink : List Int
  logs : List String
  outcome : Outcome
deriving DecidableEq, Repr

/-- The `RequestLogger` that `LoggerMiddleware` builds after the wrapped
handler returns: method and path from the request, status from the
recorder, elapsed time measured around the call (its rendering is the
`elapsed` parameter). -/
def LoggerMiddleware.requestLog (b : HandlerBehavior) (req : Request) (elapsed : String) :
    RequestLogger :=
  ((((NewRequestLoggerBuilder.SetMethod req.method).SetStatus
      (applyWrites loggerInitialWriter b.writes).Status).SetPath req.path).SetSince elapsed)

/-- Go `LoggerMiddleware` around a downstream handler of behavior `b`:
constructs a `ResponseRecorderWriter` over the real sink with status
200, invokes the handler with it (every `WriteHeader` is recorded and
forwarded), and, when the handler returns normally, emits exactly one
`String()` line built from the request method, the recorded status, the
elapsed time and the request path. When the handler panics, the
`log.Println` after `next.ServeHTTP` is never reached and the panic
escapes. -/
def LoggerMiddleware.run (b : HandlerBehavior) (req : Request) (elapsed : String) : MWTrace :=
  match b.outcome with
  | Outcome.normal =>
      { sink := (applyWrites loggerInitialWriter b.writes).forwarded
        logs := [(LoggerMiddleware.requestLog b req elapsed).line]
        outcome := Outcome.normal }
  | Outcome.panicked v =>
      { sink := (applyWrites loggerInitialWriter b.writes).forwarded
        logs := []
        outcome := Outcome.panicked v }

/-- The `RequestLogger` that `RecoveryMiddleware` builds inside its
recover branch: method and path from the request, status forced to
`http.StatusInternalServerError` (500). -/
def RecoveryMiddleware.requestLog (req : Request) : RequestLogger :=
  ((NewRequestLoggerBuilder.SetMethod req.method).SetStatus 500).SetPath req.path

/-- Go `RecoveryMiddleware` around an inner handler whose invocation
produced the trace `inner`: a deferred function calls `recover()`.
When the inner invocation ended in a panic, calling `recover` stops the
unwinding, so no panic ever escapes this layer. The branch body runs
only when `recover` yields a non-nil value: it builds the 500-status
`RequestLogger`, emits its `PanicString` line, and calls
`w.WriteHeader(rl.GetStatus())` on the real sink. On a normal return
(`recover` yields nil) the deferred function does nothing. -/
def RecoveryMiddleware.run (inner : MWTrace) (req : Request) : MWTrace :=
  match inner.outcome with
  | Outcome.normal => inner
  | Outcome.panicked GoValue.nil =>
      { sink := inner.sink, logs := inner.logs, outcome := Outcome.normal }
  | Outcome.panicked v =>
      { sink := inner.sink ++ [(RecoveryMiddleware.requestLog req).GetStatus]
        logs := inner.logs ++ [(RecoveryMiddleware.requestLog req).PanicString v]
        outcome := Outcome.normal }

/-- The middleware chain `router.Use(RecoveryMiddleware,
LoggerMiddleware)` installs: the first middleware added wraps
outermost, so a request flows Recovery, then Logger, then the routed
handler. -/
def middlewareChain (b : HandlerBehavior) (req : Request) (elapsed : String) : MWTrace :=
  RecoveryMiddleware.run (LoggerMiddleware.run b req elapsed) req

/-- Modelled from the spec: the status the client actually receives
from the real response sink. The sink is the net/http response writer,
outside this repository; per the spec (section 3), "only the first
header write is authoritative downstream", and the default when no
header is written is the success code. -/
def clientVisibleStatus (sink : List Int) : Int := sink.headD 200

/-- The builder chain through which the program constructs every
`RequestLogger` it renders: `LoggerMiddleware` calls `SetMethod`,
`SetStatus`, `SetPath`, `SetSince` in this order; `RecoveryMiddleware`
calls the first three and leaves `since` at its zero value "0s". -/
def builtLogger (method path : String) (status : Int) (since : String) : RequestLogger :=
  (((NewRequestLoggerBuilder.SetMethod method).SetStatus status).SetPath path).SetSince since

lemma string_length_append (a b : String) : (a ++ b).length = a.length + b.length :=
  String.length_append a b

lemma pad_length (rl : RequestLogger) (n : Int) (v : String) :
    ((rl.pad n v).length : Int) = max (v.length : Int) n := by
  have h0 : (0 : Int) ≤ max (n - (v.length : Int)) 0 := le_max_right _ _
  simp only [RequestLogger.pad, string_length_append, String.mk_length,
    List.length_replicate]
  omega

lemma applyWrites_Status (rr : ResponseRecorderWriter) (ws : List Int) :
    (applyWrites rr ws).Status = ws.getLastD rr.Status := by
  induction ws generalizing rr with
  | nil => rfl
  | cons w ws ih =>
      simp only [applyWrites, List.foldl_cons, List.getLastD_cons]
      exact ih (rr.WriteHeader w)

lemma applyWrites_forwarded (rr : ResponseRecorderWriter) (ws : List Int) :
    (applyWrites rr ws).forwarded = rr.forwarded ++ ws := by
  induction ws generalizing rr with
  | nil => simp [applyWrites]
  | cons w ws ih =>
      simp only [applyWrites, List.foldl_cons] at ih ⊢
      rw [ih (rr.WriteHeader w)]
      simp [ResponseRecorderWriter.WriteHeader]

/-- Claim C3: GetStatusColor is a total pure function mapping
[100,200) to the informational color, [200,300) to the success color,
[300,400) to the redirect color, [400,500) to the client-fault color,
and everything else (below 100, or at and above 500, including zero and
negative statuses) to the server-fault color. -/
theorem GetStatusColor_partition (s : Int) :
    ((100 ≤ s ∧ s < 200) → GetStatusColor s = colors.Cyan) ∧
    ((200 ≤ s ∧ s < 300) → GetStatusColor s = colors.Green) ∧
    ((300 ≤ s ∧ s < 400) → GetStatusColor s = colors.Yellow) ∧
    ((400 ≤ s ∧ s < 500) → GetStatusColor s = colors.Magenta) ∧
    ((s < 100 ∨ 500 ≤ s) → GetStatusColor s = colors.Red) := by
  simp only [GetStatusColor]
  split_ifs with h1 h2 h3 h4 <;>
    refine ⟨fun h => ?_, fun h => ?_, fun h => ?_, fun h => ?_, fun h => ?_⟩ <;>
    first
      | rfl
      | omega

/-- Witness for C3 at the boundary statuses 199/200, 299/300, 399/400,
499/500, zero and a negative value. -/
theorem GetStatusColor_partition_witness :
    GetStatusColor 199 = colors.Cyan ∧ GetStatusColor 200 = colors.Green ∧
    GetStatusColor 299 = colors.Green ∧ GetStatusColor 300 = colors.Yellow ∧
    GetStatusColor 399 = colors.Yellow ∧ GetStatusColor 400 = colors.Magenta ∧
    GetStatusColor 499 = colors.Magenta ∧ GetStatusColor 500 = colors.Red ∧
    GetStatusColor 0 = colors.Red ∧ GetStatusColor (-7) = colors.Red :=
  ⟨(GetStatusColor_partition 199).1 (by decide),
   (GetStatusColor_partition 200).2.1 (by decide),
   (GetStatusColor_partition 299).2.1 (by decide),
   (GetStatusColor_partition 300).2.2.1 (by decide),
   (GetStatusColor_partition 399).2.2.1 (by decide),
   (GetStatusColor_partition 400).2.2.2.1 (by decide),
   (GetStatusColor_partition 499).2.2.2.1 (by decide),
   (GetStatusColor_partition 500).2.2.2.2 (by decide),
   (GetStatusColor_partition 0).2.2.2.2 (by decide),
   (GetStatusColor_partition (-7)).2.2.2.2 (by decide)⟩

/-- Claim C4: pad right-pads the rendered value with spaces to exactly
width n when it is shorter than n, adds nothing when it is at or beyond
n, never truncates (the rendered value is always an initial segment of
the result), and the result length is the maximum of the value length
and n. -/
theorem pad_spec (rl : RequestLogger) (n : Int) (v : String) :
    ((v.length : Int) < n → ((rl.pad n v).length : Int) = n) ∧
    (n ≤ (v.length : Int) → rl.pad n v = v) ∧
    (∃ t, rl.pad n v = v ++ t) ∧
    ((rl.pad n v).length : Int) = max (v.length : Int) n := by
  refine ⟨fun h => ?_, fun h => ?_, ⟨_, rfl⟩, pad_length rl n v⟩
  · rw [pad_length]; omega
  · have hz : (max (n - (v.length : Int)) 0).toNat = 0 := by omega
    simp only [RequestLogger.pad, hz, List.replicate_zero]
    exact String.append_empty v

/-- Witness for C4: the method "GET" is padded to width 7, and the
width-7 method "OPTIONS" is returned unchanged. -/
theorem pad_spec_witness :
    (("GET".length : Int) < 7 ∧
      ((NewRequestLoggerBuilder.pad 7 "GET").length : Int) = 7) ∧
    ((7 : Int) ≤ ("OPTIONS".length : Int) ∧
      NewRequestLoggerBuilder.pad 7 "OPTIONS" = "OPTIONS") :=
  ⟨⟨by decide, (pad_spec NewRequestLoggerBuilder 7 "GET").1 (by decide)⟩,
   ⟨by decide, (pad_spec NewRequestLoggerBuilder 7 "OPTIONS").2.1 (by decide)⟩⟩



lemma blank_column_eq :
    (" |             | " : String) = " |" ++ String.mk (List.replicate 13 ' ') ++ "| " := by
  decide

lemma padAndColor_seven (rl : RequestLogger) (v : String) :
    rl.padAndColor 7 v = rl.color ++ rl.pad 7 v ++ colors.Reset := by
  unfold RequestLogger.padAndColor
  rw [if_pos (by decide)]

lemma padAndColor_zero (rl : RequestLogger) (v : String) :
    rl.padAndColor 0 v = rl.color ++ v ++ colors.Reset := by
  unfold RequestLogger.padAndColor
  rw [if_neg (by decide)]

lemma builtLogger_eq (m p : String) (s : Int) (d : String) :
    builtLogger m p s d =
      { method := m, status := s, since := d, path := p, color := GetStatusColor s } :=
  rfl

/-- Claim C5: on any logger the program builds, PanicString renders the
method and status through the very expressions the String renderer
uses, replaces the elapsed-time column by 13 blank characters, and
appends the fault description (its message when it implements error,
the literal "Unknown" otherwise) wrapped between the color derived from
the logger status and the reset marker. -/
theorem PanicString_spec (m p d : String) (s : Int) (err : GoValue) :
    (builtLogger m p s d).PanicString err =
      "| " ++ (builtLogger m p s d).padAndColor 7 m
        ++ " | " ++ (builtLogger m p s d).padAndColor 0 (toString s)
        ++ " |" ++ String.mk (List.replicate 13 ' ')
        ++ "| " ++ p ++ " "
        ++ (GetStatusColor s
            ++ (match err with | GoValue.err msg => msg | _ => "Unknown")
            ++ colors.Reset) := by
  cases err <;>
    simp [RequestLogger.PanicString, builtLogger_eq, RequestLogger.GetMethod,
      RequestLogger.GetStatus, RequestLogger.GetPath, blank_column_eq,
      String.append_assoc]

/-- Claim C6 counterexample: on a concrete logger (GET /, status 200,
elapsed 1ms), the rendered line differs from the line the claim
describes, in which the method column is plain (uncolored) and only the
status field carries color markers. -/
theorem line_claim_counterexample :
    (builtLogger "GET" "/" 200 "1ms").line ≠
      "| " ++ (builtLogger "GET" "/" 200 "1ms").pad 7 "GET"
        ++ " | " ++ (colors.Green ++ "200" ++ colors.Reset)
        ++ " | " ++ (builtLogger "GET" "/" 200 "1ms").pad 12 "1ms"
        ++ " | /" := by
  decide

/-- Claim C6 amended: the String renderer produces
`"| <method padded to 7, color wrapped> | <status color wrapped,
unpadded> | <elapsed padded to 12> | <path>"`; the method column too is
wrapped between the color marker and the reset marker (the same color
the status field uses), while the elapsed column and the path stay
plain. -/
theorem line_spec (rl : RequestLogger) :
    rl.line =
      "| " ++ (rl.color ++ rl.pad 7 rl.method ++ colors.Reset)
        ++ " | " ++ (rl.color ++ toString rl.status ++ colors.Reset)
        ++ " | " ++ rl.pad 12 rl.since
        ++ " | " ++ rl.path := by
  simp [RequestLogger.line, RequestLogger.padAndColor, RequestLogger.GetMethod,
    RequestLogger.GetStatus, RequestLogger.GetSince, RequestLogger.GetPath,
    String.append_assoc]

/-- Claim C7 counterexample: a logger on which SetStatus was never
called does not render its PanicString line with the server-fault
color; the line with red color markers around the fields differs from
the actual output. -/
theorem default_color_counterexample :
    ((NewRequestLoggerBuilder.SetMethod "GET").SetPath "/").PanicString GoValue.other ≠
      "| " ++ (colors.Red
          ++ ((NewRequestLoggerBuilder.SetMethod "GET").SetPath "/").pad 7 "GET"
          ++ colors.Reset)
        ++ " | " ++ (colors.Red ++ "0" ++ colors.Reset)
        ++ " |" ++ String.mk (List.replicate 13 ' ')
        ++ "| / " ++ (colors.Red ++ "Unknown" ++ colors.Reset) := by
  decide

/-- Claim C7 amended: the color of a freshly built logger is the empty
string, so a logger whose status was never set renders with no
color-start marker at all (the reset marker is still emitted); the
server-fault color is what `GetStatusColor` would return for the zero
status, but it is consulted only inside `SetStatus`. -/
theorem default_color_spec (m p : String) :
    NewRequestLoggerBuilder.color = "" ∧
    GetStatusColor 0 = colors.Red ∧
    ((NewRequestLoggerBuilder.SetMethod m).SetPath p).color = "" ∧
    ((NewRequestLoggerBuilder.SetMethod m).SetPath p).line =
      "| " ++ ((NewRequestLoggerBuilder.SetMethod m).SetPath p).pad 7 m ++ colors.Reset
        ++ " | " ++ "0" ++ colors.Reset
        ++ " | " ++ ((NewRequestLoggerBuilder.SetMethod m).SetPath p).pad 12 "0s"
        ++ " | " ++ p ∧
    ((NewRequestLoggerBuilder.SetMethod m).SetPath p).PanicString GoValue.other =
      "| " ++ ((NewRequestLoggerBuilder.SetMethod m).SetPath p).pad 7 m ++ colors.Reset
        ++ " | " ++ "0" ++ colors.Reset
        ++ " |" ++ String.mk (List.replicate 13 ' ')
        ++ "| " ++ p ++ " " ++ "Unknown" ++ colors.Reset := by
  have h0 : toString (0 : Int) = "0" := rfl
  refine ⟨rfl, rfl, rfl, ?_, ?_⟩ <;>
    simp only [RequestLogger.line, RequestLogger.PanicString, padAndColor_seven,
      padAndColor_zero, RequestLogger.SetMethod, RequestLogger.SetPath,
      NewRequestLoggerBuilder, RequestLogger.GetMethod, RequestLogger.GetStatus,
      RequestLogger.GetSince, RequestLogger.GetPath, h0, String.empty_append,
      blank_column_eq, String.append_assoc]

/-- Claim C1 counterexample: when the downstream handler panics and
`recover` yields nil, the composed chain emits zero log lines, not
exactly one. -/
theorem chain_log_claim_counterexample :
    (middlewareChain { writes := [], outcome := Outcome.panicked GoValue.nil }
        { method := "GET", path := "/" } "1ms").logs.length ≠ 1 := by
  decide

/-- Claim C1 amended: for every request whose handling does not end in
a panic on which `recover` yields nil, the composed chain (Recovery
outermost, Logger inside) emits exactly one log line: the `String()`
line of the logger built by `LoggerMiddleware` on a normal return, and
only the `PanicString` line of the 500-status logger built by
`RecoveryMiddleware` when the handler faults. -/
theorem chain_one_log (b : HandlerBehavior) (req : Request) (elapsed : String)
    (h : b.outcome ≠ Outcome.panicked GoValue.nil) :
    (middlewareChain b req elapsed).logs.length = 1 ∧
    (b.outcome = Outcome.normal →
      (middlewareChain b req elapsed).logs
        = [(LoggerMiddleware.requestLog b req elapsed).line]) ∧
    (∀ v, b.outcome = Outcome.panicked v →
      (middlewareChain b req elapsed).logs
        = [(RecoveryMiddleware.requestLog req).PanicString v]) := by
  obtain ⟨ws, o⟩ := b
  cases o with
  | normal =>
      simp [middlewareChain, LoggerMiddleware.run, RecoveryMiddleware.run]
  | panicked v =>
      cases v with
      | nil => exact absurd rfl h
      | err msg =>
          simp [middlewareChain, LoggerMiddleware.run, RecoveryMiddleware.run]
      | other =>
          simp [middlewareChain, LoggerMiddleware.run, RecoveryMiddleware.run]

/-- Witness for the amended C1 at a concrete normal request. -/
theorem chain_one_log_witness :
    ({ writes := [], outcome := Outcome.normal } : HandlerBehavior).outcome
        ≠ Outcome.panicked GoValue.nil ∧
    (middlewareChain { writes := [], outcome := Outcome.normal }
        { method := "GET", path := "/" } "1ms").logs.length = 1 :=
  ⟨by decide, (chain_one_log _ _ _ (by decide)).1⟩

/-- Claim C2 counterexample: when the inner handler panics and
`recover` yields nil, RecoveryMiddleware emits no `PanicString` line
and writes no 500 to the real sink. -/
theorem recovery_claim_counterexample :
    (RecoveryMiddleware.run
        { sink := [], logs := [], outcome := Outcome.panicked GoValue.nil }
        { method := "GET", path := "/" }).logs.length ≠ 1 ∧
    (RecoveryMiddleware.run
        { sink := [], logs := [], outcome := Outcome.panicked GoValue.nil }
        { method := "GET", path := "/" }).sink ≠ [500] := by
  decide

/-- Claim C2 amended: a panic never propagates past RecoveryMiddleware;
when `recover` yields a non-nil value the middleware appends the
`PanicString` line of a logger holding the request method and path with
status forced to 500 and writes 500 to the real sink; on normal
completion it is a pure passthrough. -/
theorem recovery_spec (inner : MWTrace) (req : Request) :
    (RecoveryMiddleware.run inner req).outcome = Outcome.normal ∧
    (inner.outcome = Outcome.normal → RecoveryMiddleware.run inner req = inner) ∧
    (∀ v, v ≠ GoValue.nil → inner.outcome = Outcome.panicked v →
      RecoveryMiddleware.run inner req =
        { sink := inner.sink ++ [500]
          logs := inner.logs ++ [(RecoveryMiddleware.requestLog req).PanicString v]
          outcome := Outcome.normal }) ∧
    (RecoveryMiddleware.requestLog req).method = req.method ∧
    (RecoveryMiddleware.requestLog req).path = req.path ∧
    (RecoveryMiddleware.requestLog req).status = 500 := by
  obtain ⟨sink, logs, o⟩ := inner
  refine ⟨?_, ?_, ?_, rfl, rfl, rfl⟩
  · cases o with
    | normal => rfl
    | panicked v => cases v <;> rfl
  · intro h
    cases o with
    | normal => rfl
    | panicked v => exact Outcome.noConfusion h
  · intro v hv ho
    cases o with
    | normal => exact Outcome.noConfusion ho
    | panicked w =>
        injection ho with h2
        subst h2
        cases w with
        | nil => exact absurd rfl hv
        | err msg => rfl
        | other => rfl

/-- Witness for the amended C2 at a concrete error-valued panic. -/
theorem recovery_spec_witness :
    GoValue.err "boom" ≠ GoValue.nil ∧
    RecoveryMiddleware.run
        { sink := [], logs := [], outcome := Outcome.panicked (GoValue.err "boom") }
        { method := "GET", path := "/nil_pointer" } =
      { sink := [500]
        logs := [(RecoveryMiddleware.requestLog
            { method := "GET", path := "/nil_pointer" }).PanicString (GoValue.err "boom")]
        outcome := Outcome.normal } :=
  ⟨by decide, by
    have h := (recovery_spec
        { sink := [], logs := [], outcome := Outcome.panicked (GoValue.err "boom") }
        { method := "GET", path := "/nil_pointer" }).2.2.1
      (GoValue.err "boom") (by decide) rfl
    simpa using h⟩

/-- Claim C8 counterexample: a handler that calls WriteHeader twice
(404 then 500) and returns normally is logged with the last declared
status 500, while the real sink (which honors only the first header
write) sent 404 to the client. -/
theorem recorder_claim_counterexample :
    (LoggerMiddleware.requestLog { writes := [404, 500], outcome := Outcome.normal }
        { method := "GET", path := "/" } "1ms").status = 500 ∧
    clientVisibleStatus
        (middlewareChain { writes := [404, 500], outcome := Outcome.normal }
          { method := "GET", path := "/" } "1ms").sink = 404 ∧
    (500 : Int) ≠ 404 := by
  decide

/-- Claim C8 amended: the recorded status starts at 200 and stays 200
when WriteHeader is never invoked; every WriteHeader call records its
status and forwards the identical call; after any sequence of calls the
recorded (and logged) status is the last one written; it also equals
the client-visible status whenever the handler wrote at most one
header. -/
theorem recorder_spec (ws : List Int) :
    loggerInitialWriter.Status = 200 ∧
    (∀ rr s, (ResponseRecorderWriter.WriteHeader rr s).Status = s ∧
      (ResponseRecorderWriter.WriteHeader rr s).forwarded = rr.forwarded ++ [s]) ∧
    (applyWrites loggerInitialWriter ws).Status = ws.getLastD 200 ∧
    (applyWrites loggerInitialWriter ws).forwarded = ws ∧
    (∀ b req elapsed, (LoggerMiddleware.requestLog b req elapsed).status
        = b.writes.getLastD 200) ∧
    (ws.length ≤ 1 → ws.getLastD 200 = clientVisibleStatus ws) := by
  refine ⟨rfl, fun rr s => ⟨rfl, rfl⟩, applyWrites_Status loggerInitialWriter ws, ?_, ?_, ?_⟩
  · rw [applyWrites_forwarded]
    rfl
  · intro b req elapsed
    show (applyWrites loggerInitialWriter b.writes).Status = b.writes.getLastD 200
    exact applyWrites_Status loggerInitialWriter b.writes
  · intro h
    match ws, h with
    | [], _ => rfl
    | [a], _ => rfl

/-- Witness for the amended C8 at a single-write sequence. -/
theorem recorder_spec_witness :
    ([404] : List Int).length ≤ 1 ∧
    ([404] : List Int).getLastD 200 = clientVisibleStatus [404] :=
  ⟨by decide, (recorder_spec [404]).2.2.2.2.2 (by decide)⟩

/-- Claim C10: when the downstream handler panics with a value on which
`recover` yields nil, the chain still stops the panic (no panic escapes
RecoveryMiddleware), yet emits no log line at all and writes nothing
beyond the handler writes to the real sink (in particular no 500). -/
theorem recovery_nil_spec (b : HandlerBehavior) (req : Request) (elapsed : String)
    (h : b.outcome = Outcome.panicked GoValue.nil) :
    (middlewareChain b req elapsed).outcome = Outcome.normal ∧
    (middlewareChain b req elapsed).logs = [] ∧
    (middlewareChain b req elapsed).sink = b.writes := by
  obtain ⟨ws, o⟩ := b
  cases o with
  | normal => exact Outcome.noConfusion h
  | panicked v =>
      injection h with h2
      subst h2
      refine ⟨rfl, rfl, ?_⟩
      show (applyWrites loggerInitialWriter ws).forwarded = ws
      rw [applyWrites_forwarded]
      rfl

/-- Witness for C10 at a concrete nil-recovered panic. -/
theorem recovery_nil_spec_witness :
    ({ writes := [404], outcome := Outcome.panicked GoValue.nil } : HandlerBehavior).outcome
        = Outcome.panicked GoValue.nil ∧
    (middlewareChain { writes := [404], outcome := Outcome.panicked GoValue.nil }
        { method := "GET", path := "/" } "1ms").sink = [404] :=
  ⟨rfl, (recovery_nil_spec _ _ _ rfl).2.2⟩
